import Mathlib

/-!
Verification development for the `simple_agent_ui` repository
(`src/pages/landing.jsx`).  JavaScript strings are embedded as `List Char`
(`JStr`); every definition below is a direct transcription of a function or
code path of `landing.jsx`, with the source line numbers noted.  Display-only
fields (`id`, `timestamp`, icons, styling) are omitted: no verified property
depends on them.
-/

/-- JavaScript strings, embedded as lists of characters. -/
abbrev JStr := List Char

/-- Coerce a Lean string literal into the embedding. -/
def jstr (s : String) : JStr := s.data

/-- The whitespace characters removed by JavaScript `String.prototype.trim`
(restricted to the ASCII range that the repository's inputs use). -/
def jsWhitespace (c : Char) : Bool :=
  c = ' ' || c = '\t' || c = '\n' || c = '\r' || c = '\x0b' || c = '\x0c'

/-- JavaScript `s.trim()`. -/
def jsTrim (s : JStr) : JStr :=
  ((s.dropWhile jsWhitespace).reverse.dropWhile jsWhitespace).reverse

/-- JavaScript `hay.includes(needle)`. -/
def isSubstr (needle : JStr) : JStr → Bool
  | [] => needle.isEmpty
  | c :: rest => needle.isPrefixOf (c :: rest) || isSubstr needle rest

/-- Sentence delimiters used by `landing.jsx` line 80: `content.split(/[.!?]+/)`. -/
def isSentenceDelim (c : Char) : Bool := c = '.' || c = '!' || c = '?'

/-- Split a string at every character satisfying `p` (keeping empty pieces).
Splitting at each delimiter character differs from JS `split(/[.!?]+/)` only
by extra empty pieces between consecutive delimiters, and those are removed
by the non-blank filter applied in `sentences` below. -/
def splitOnPred (p : Char → Bool) : JStr → List JStr
  | [] => [[]]
  | c :: rest =>
    if p c then [] :: splitOnPred p rest
    else
      match splitOnPred p rest with
      | [] => [[c]]
      | t :: ts => (c :: t) :: ts

/-- `landing.jsx` lines 79-81:
`content.split(/[.!?]+/).filter((s) => s.trim().length > 0)`. -/
def sentences (content : JStr) : List JStr :=
  (splitOnPred isSentenceDelim content).filter (fun s => !(jsTrim s).isEmpty)

/-- `landing.jsx` lines 70-75: the "already well-formatted" test
`content.includes("•") || content.includes("**") || content.includes("\n\n")`. -/
def alreadyFormatted (content : JStr) : Bool :=
  isSubstr (jstr ("•")) content || isSubstr (jstr ("**")) content ||
    isSubstr (jstr ("\n\n")) content

/-! ### The website/platform token regex (`landing.jsx` lines 95-97)

`content.match(/(\w+\.com|\w+\.org|\w+\.ai|\w+Face|\w+Net|[A-Z][a-z]+[A-Z][a-z]+)/g)`

The matcher below implements the JS backtracking semantics of that exact
regex: at each start position the six alternatives are tried left to right;
within an alternative a `+` quantifier is greedy, trying the longest
repetition first and giving characters back one at a time.  A global match
scan records each match and resumes right after it, otherwise advances one
character. -/

/-- JavaScript `\w` (ASCII word character). -/
def isWordChar (c : Char) : Bool := c.isAlpha || c.isDigit || c = '_'

/-- `[n, n-1, ..., 1]`: the candidate lengths of a greedy `+` quantifier,
longest first. -/
def countdown : Nat → List Nat
  | 0 => []
  | n + 1 => (n + 1) :: countdown n

/-- Match `\w+LIT` at the start of `s` (greedy backtracking on `\w+`),
returning the match length.  Covers the alternatives `\w+\.com`, `\w+\.org`,
`\w+\.ai`, `\w+Face`, `\w+Net`. -/
def wordPlusThenLit (lit s : JStr) : Option Nat :=
  (countdown (s.takeWhile isWordChar).length).findSome? (fun k =>
    if lit.isPrefixOf (s.drop k) then some (k + lit.length) else none)

/-- Match `[A-Z][a-z]+[A-Z][a-z]+` at the start of `s` (greedy backtracking
on the first `[a-z]+`; the second `[a-z]+` ends the pattern so its greedy
maximum is final), returning the match length. -/
def camelCaseAt (s : JStr) : Option Nat :=
  match s with
  | [] => none
  | c0 :: s1 =>
    if c0.isUpper then
      (countdown (s1.takeWhile Char.isLower).length).findSome? (fun k1 =>
        match s1.drop k1 with
        | c2 :: s2 =>
          if c2.isUpper then
            if 0 < (s2.takeWhile Char.isLower).length then
              some (1 + k1 + 1 + (s2.takeWhile Char.isLower).length)
            else none
          else none
        | [] => none)
    else none

/-- Try the six alternatives of the website regex, left to right, at the
start of `s`. -/
def matchLenAt (s : JStr) : Option Nat :=
  (wordPlusThenLit (jstr (".com")) s).orElse (fun _ =>
  (wordPlusThenLit (jstr (".org")) s).orElse (fun _ =>
  (wordPlusThenLit (jstr (".ai")) s).orElse (fun _ =>
  (wordPlusThenLit (jstr ("Face")) s).orElse (fun _ =>
  (wordPlusThenLit (jstr ("Net")) s).orElse (fun _ =>
  camelCaseAt s)))))

/-- Global scan of the website regex over `s`.  Every alternative consumes at
least one character, so `s.length` steps of fuel suffice. -/
def matchAllAux : Nat → JStr → List JStr
  | 0, _ => []
  | _, [] => []
  | fuel + 1, c :: rest =>
    match matchLenAt (c :: rest) with
    | some n => (c :: rest).take n :: matchAllAux fuel ((c :: rest).drop n)
    | none => matchAllAux fuel rest

/-- `landing.jsx` lines 95-97: `content.match(/(...)/g)`, as the list of
matched substrings in order (the empty list standing for JS `null`). -/
def websiteMatches (content : JStr) : List JStr :=
  matchAllAux content.length content

/-! ### The per-site context regex (`landing.jsx` lines 104-108)

`new RegExp(`([^.]*SITE[^.]*\\.?)`, "i")` where SITE is the matched token
with regex metacharacters escaped (so it is matched literally), searched
case-insensitively with `content.match(siteRegex)` (first match). -/

/-- Case-insensitive character comparison (JS `i` flag, ASCII folding). -/
def ciEqChar (a b : Char) : Bool := a.toLower == b.toLower

/-- Case-insensitive prefix test. -/
def ciIsPrefixOf : JStr → JStr → Bool
  | [], _ => true
  | _ :: _, [] => false
  | a :: as, b :: bs => ciEqChar a b && ciIsPrefixOf as bs

/-- Not a literal dot (the `[^.]` character class). -/
def nonDot (c : Char) : Bool := c != '.'

/-- After the site token has been matched, the trailing `[^.]*\.?` is greedy
and ends the pattern, so it consumes the maximal dot-free run plus a single
following dot when present. -/
def starThenOptDot (s : JStr) : Nat :=
  (s.takeWhile nonDot).length +
    (match s.drop (s.takeWhile nonDot).length with
     | '.' :: _ => 1
     | _ => 0)

/-- Match `[^.]*SITE[^.]*\.?` at the start of `s` (greedy backtracking on the
leading `[^.]*`, case-insensitive literal `SITE`), returning the match
length. -/
def fragMatchLenAt (site s : JStr) : Option Nat :=
  (countdown (s.takeWhile nonDot).length ++ [0]).findSome? (fun n1 =>
    if ciIsPrefixOf site (s.drop n1) then
      some (n1 + site.length + starThenOptDot (s.drop (n1 + site.length)))
    else none)

/-- First (leftmost) match of the site-context regex in `content`:
JS `content.match(siteRegex)`, whose capture group spans the whole match. -/
def fragFirstMatch (site : JStr) : JStr → Option JStr
  | [] => (fragMatchLenAt site []).map (fun _ => ([] : JStr))
  | c :: rest =>
    match fragMatchLenAt site (c :: rest) with
    | some n => some ((c :: rest).take n)
    | none => fragFirstMatch site rest

/-- JavaScript `hay.replace(pat, "")`: remove the first (case-sensitive)
occurrence of `pat`, if any. -/
def replaceFirst : JStr → JStr → JStr
  | [], _ => []
  | c :: rest, pat =>
    if pat.isPrefixOf (c :: rest) then (c :: rest).drop pat.length
    else c :: replaceFirst rest pat

/-- `landing.jsx` lines 102-114: the bullet contributed by one detected site
token (`""` when the context search fails, mirroring `if (match)`). -/
def bulletForSite (content site : JStr) : JStr :=
  match fragFirstMatch site content with
  | some frag =>
    jstr ("• **") ++ site ++ jstr ("** - ") ++
      jsTrim (replaceFirst frag site) ++ jstr ("\n")
  | none => []

/-- `landing.jsx` lines 100-118: the synthesized bulleted list (the
`forEach` loop appends one bullet per match onto the header, then the
closing invitation line is appended). -/
def listBranch (content : JStr) : JStr :=
  (websiteMatches content).foldl
      (fun acc site => acc ++ bulletForSite content site)
      (jstr ("I found several great options:\n\n")) ++
    jstr ("\nWould you like me to provide more details about any of these options?")

/-- `landing.jsx` lines 121-126: split the sentence list at
`Math.floor(sentences.length / 2)`, rejoin each half with `". "` plus a
final period, and separate the halves by a blank line. -/
def midSplitBranch (content : JStr) : JStr :=
  (List.intercalate (jstr (". "))
      ((sentences content).take ((sentences content).length / 2)) ++ jstr (".")) ++
    jstr ("\n\n") ++
    (List.intercalate (jstr (". "))
      ((sentences content).drop ((sentences content).length / 2)) ++ jstr ("."))

/-- `landing.jsx` lines 68-130: `formatAIResponse`. -/
def formatAIResponse (content : JStr) : JStr :=
  if alreadyFormatted content then content
  else if 3 < (sentences content).length ∧ 300 < content.length then
    if 2 < (websiteMatches content).length then listBranch content
    else midSplitBranch content
  else content

/-! ### Backend locator and header status label -/

/-- `landing.jsx` line 62: the fixed production backend URL. -/
def productionURL : JStr := jstr ("https://simple-agent-backend.onrender.com")

/-- `landing.jsx` lines 53-63: `getBackendURL`, a function of the page
hostname. -/
def getBackendURL (hostname : JStr) : JStr :=
  if hostname = jstr ("localhost") ∨ hostname = jstr ("127.0.0.1") then
    jstr ("http://localhost:5000")
  else productionURL

/-- `landing.jsx` line 471: the header badge
`window.location.hostname === "localhost" ? "Local" : "Online"`. -/
def statusLabel (hostname : JStr) : JStr :=
  if hostname = jstr ("localhost") then jstr ("Local") else jstr ("Online")

/-! ### Formatter lemmas -/

/-- The guarded branches of `formatAIResponse` are only reached on long,
multi-sentence, not-already-formatted inputs; all other inputs come back
unchanged. -/
lemma formatAIResponse_eq_self (content : JStr)
    (h : alreadyFormatted content = true ∨ content.length ≤ 300 ∨
      (sentences content).length ≤ 3) :
    formatAIResponse content = content := by
  unfold formatAIResponse
  by_cases hf : alreadyFormatted content = true
  · simp [hf]
  · have hb : alreadyFormatted content = false := by
      simpa using hf
    have hcond : ¬(3 < (sentences content).length ∧ 300 < content.length) := by
      rcases h with h | h | h
      · exact absurd h hf
      · omega
      · omega
    simp [hb, hcond]

/-- C4: `formatAIResponse` returns its input byte-identical whenever the input
already contains a bullet marker, a bold marker, or a paragraph break, and
also whenever (regardless of markers) its length is at most 300 characters or
it has at most three sentence-like segments after splitting on `.`, `!`, `?`. -/
theorem formatAIResponse_identity (content : JStr)
    (h : isSubstr (jstr ("•")) content = true ∨
      isSubstr (jstr ("**")) content = true ∨
      isSubstr (jstr ("\n\n")) content = true ∨
      content.length ≤ 300 ∨ (sentences content).length ≤ 3) :
    formatAIResponse content = content := by
  apply formatAIResponse_eq_self
  rcases h with h | h | h | h | h
  · exact Or.inl (by simp [alreadyFormatted, h])
  · exact Or.inl (by simp [alreadyFormatted, h])
  · exact Or.inl (by simp [alreadyFormatted, h])
  · exact Or.inr (Or.inl h)
  · exact Or.inr (Or.inr h)

/-- Witness for C4 at the concrete input `"hello world"` (short, unformatted). -/
theorem formatAIResponse_identity_witness :
    (jstr ("hello world")).length ≤ 300 ∧
      formatAIResponse (jstr ("hello world")) = jstr ("hello world") :=
  ⟨by decide,
    formatAIResponse_identity (jstr ("hello world"))
      (Or.inr (Or.inr (Or.inr (Or.inl (by decide)))))⟩

/-- C6: on a long (> 300 chars), multi-sentence (> 3 segments), unformatted
input in which at most two website/platform tokens are detected,
`formatAIResponse` splits the sentence list at `⌊count / 2⌋`, rejoins each
half with `". "` plus a trailing period, and separates the halves by a blank
line. -/
theorem formatAIResponse_midpoint_split (content : JStr)
    (h0 : alreadyFormatted content = false)
    (h1 : 3 < (sentences content).length)
    (h2 : 300 < content.length)
    (h3 : (websiteMatches content).length ≤ 2) :
    formatAIResponse content =
      (List.intercalate (jstr (". "))
          ((sentences content).take ((sentences content).length / 2)) ++ jstr (".")) ++
        jstr ("\n\n") ++
        (List.intercalate (jstr (". "))
          ((sentences content).drop ((sentences content).length / 2)) ++ jstr (".")) := by
  unfold formatAIResponse midSplitBranch
  simp [h0, h1, h2, Nat.not_lt.mpr h3]

/-- A concrete long input with five sentences and no detectable
website/platform token. -/
def plainLongText : JStr :=
  jstr ("the quick brown fox jumps over the lazy dog and runs far away. the quick brown fox jumps over the lazy dog and runs far away. the quick brown fox jumps over the lazy dog and runs far away. the quick brown fox jumps over the lazy dog and runs far away. the quick brown fox jumps over the lazy dog and runs far away.")

set_option maxRecDepth 100000 in
/-- Witness for C6 at `plainLongText`. -/
theorem formatAIResponse_midpoint_split_witness :
    (alreadyFormatted plainLongText = false ∧
      3 < (sentences plainLongText).length ∧
      300 < plainLongText.length ∧
      (websiteMatches plainLongText).length ≤ 2) ∧
    formatAIResponse plainLongText =
      (List.intercalate (jstr (". "))
          ((sentences plainLongText).take ((sentences plainLongText).length / 2)) ++ jstr (".")) ++
        jstr ("\n\n") ++
        (List.intercalate (jstr (". "))
          ((sentences plainLongText).drop ((sentences plainLongText).length / 2)) ++ jstr (".")) :=
  ⟨⟨by decide, by decide, by decide, by decide⟩,
    formatAIResponse_midpoint_split plainLongText
      (by decide) (by decide) (by decide) (by decide)⟩

/-! ### Backend locator claims -/

/-- C7 counterexample: the hostname `127.0.0.1` is not `localhost`, so the
claim assigns it the status label `"Online"` together with the production
base URL; the code does label it `"Online"`, but pairs that with the local
development URL, not the production one. -/
theorem statusLabel_loopback_counterexample :
    jstr ("127.0.0.1") ≠ jstr ("localhost") ∧
      statusLabel (jstr ("127.0.0.1")) = jstr ("Online") ∧
      getBackendURL (jstr ("127.0.0.1")) = jstr ("http://localhost:5000") ∧
      getBackendURL (jstr ("127.0.0.1")) ≠ productionURL := by
  refine ⟨by decide, by decide, by decide, by decide⟩

/-- C7 (amended): `localhost` and `127.0.0.1` get the local base URL and all
other hostnames the production URL; the status label is `"Local"` exactly for
`localhost` and `"Online"` for every other hostname — in particular
`127.0.0.1` shows `"Online"` with the local base URL. -/
theorem backendURL_and_statusLabel (hostname : JStr) :
    (hostname = jstr ("localhost") ∨ hostname = jstr ("127.0.0.1") →
      getBackendURL hostname = jstr ("http://localhost:5000")) ∧
    (hostname ≠ jstr ("localhost") ∧ hostname ≠ jstr ("127.0.0.1") →
      getBackendURL hostname = productionURL) ∧
    (hostname = jstr ("localhost") → statusLabel hostname = jstr ("Local")) ∧
    (hostname ≠ jstr ("localhost") → statusLabel hostname = jstr ("Online")) := by
  refine ⟨fun h => ?_, fun h => ?_, fun h => ?_, fun h => ?_⟩
  · simp [getBackendURL, h]
  · simp [getBackendURL, h.1, h.2]
  · simp [statusLabel, h]
  · simp [statusLabel, h]

/-- Witness for the amended C7 at the concrete hostnames `"example.com"` and
`"127.0.0.1"`. -/
theorem backendURL_and_statusLabel_witness :
    getBackendURL (jstr ("example.com")) = productionURL ∧
      statusLabel (jstr ("example.com")) = jstr ("Online") ∧
      getBackendURL (jstr ("127.0.0.1")) = jstr ("http://localhost:5000") ∧
      statusLabel (jstr ("127.0.0.1")) = jstr ("Online") :=
  ⟨(backendURL_and_statusLabel (jstr ("example.com"))).2.1 ⟨by decide, by decide⟩,
    (backendURL_and_statusLabel (jstr ("example.com"))).2.2.2 (by decide),
    (backendURL_and_statusLabel (jstr ("127.0.0.1"))).1 (Or.inr rfl),
    (backendURL_and_statusLabel (jstr ("127.0.0.1"))).2.2.2 (by decide)⟩

/-! ### List-detection branch (C5) -/

/-- Every token produced by the global regex scan is a contiguous substring
of the scanned text. -/
lemma mem_matchAllAux_infix :
    ∀ (fuel : Nat) (s m : JStr), m ∈ matchAllAux fuel s → m <:+: s := by
  intro fuel
  induction fuel with
  | zero => intro s m h; simp [matchAllAux] at h
  | succ fuel ih =>
    intro s m h
    cases s with
    | nil => simp [matchAllAux] at h
    | cons c rest =>
      rw [matchAllAux] at h
      cases hm : matchLenAt (c :: rest) with
      | some n =>
        rw [hm] at h
        rcases List.mem_cons.mp h with rfl | h2
        · exact ⟨[], (c :: rest).drop n, by simp⟩
        · have hsuf : (c :: rest).drop n <:+ c :: rest :=
            ⟨(c :: rest).take n, List.take_append_drop n _⟩
          exact (ih _ _ h2).trans hsuf.isInfix
      | none =>
        rw [hm] at h
        exact (ih rest m h).trans (List.suffix_cons c rest).isInfix

/-- Case-insensitive matching succeeds on an identical (hence equal up to
case) prefix. -/
lemma ciIsPrefixOf_append_self : ∀ (l t : JStr), ciIsPrefixOf l (l ++ t) = true := by
  intro l t
  induction l with
  | nil => rfl
  | cons a as ih => simp [ciIsPrefixOf, ciEqChar, ih]

/-- If some element of `l` succeeds under `f`, so does `l.findSome? f`. -/
lemma findSome?_isSome_of_mem {α β : Type} (l : List α) (f : α → Option β)
    (a : α) (ha : a ∈ l) (hf : (f a).isSome) : (l.findSome? f).isSome := by
  induction l with
  | nil => cases ha
  | cons x xs ih =>
    rw [List.findSome?_cons]
    cases hx : f x with
    | some b => simp
    | none =>
      rcases List.mem_cons.mp ha with rfl | h
      · rw [hx] at hf; cases hf
      · exact ih h

/-- When the site token is itself a case-insensitive prefix of `s`, the
context pattern `[^.]*SITE[^.]*\.?` matches at the start of `s` (with the
leading `[^.]*` allowed to be empty). -/
lemma fragMatchLenAt_isSome_self (site s : JStr)
    (h : ciIsPrefixOf site s = true) : (fragMatchLenAt site s).isSome := by
  unfold fragMatchLenAt
  apply findSome?_isSome_of_mem _ _ 0
  · exact List.mem_append_right _ (List.mem_singleton.mpr rfl)
  · simp [h]

/-- If the site token occurs case-insensitively at some offset of `content`,
the first-match scan of the context regex succeeds. -/
lemma fragFirstMatch_isSome_of_drop :
    ∀ (content : JStr) (p : Nat) (site : JStr),
      ciIsPrefixOf site (content.drop p) = true →
      ∃ frag, fragFirstMatch site content = some frag := by
  intro content
  induction content with
  | nil =>
    intro p site h
    cases site with
    | nil => exact ⟨[], rfl⟩
    | cons a as => rw [List.drop_nil] at h; cases h
  | cons c rest ih =>
    intro p site h
    cases hm : fragMatchLenAt site (c :: rest) with
    | some n => exact ⟨(c :: rest).take n, by rw [fragFirstMatch, hm]⟩
    | none =>
      cases p with
      | zero =>
        have := fragMatchLenAt_isSome_self site (c :: rest) (by simpa using h)
        rw [hm] at this; cases this
      | succ p' =>
        rw [List.drop_succ_cons] at h
        obtain ⟨frag, hfrag⟩ := ih p' site h
        exact ⟨frag, by rw [fragFirstMatch, hm, hfrag]⟩

/-- Any substring of `content` is found by the context regex's first-match
scan. -/
lemma fragFirstMatch_of_infix (site content : JStr) (h : site <:+: content) :
    ∃ frag, fragFirstMatch site content = some frag := by
  obtain ⟨u, v, huv⟩ := h
  apply fragFirstMatch_isSome_of_drop content u.length
  have : content.drop u.length = site ++ v := by
    rw [← huv, List.append_assoc, List.drop_left]
  rw [this]
  exact ciIsPrefixOf_append_self site v

/-- The `forEach` accumulation of bullets is the concatenation of one bullet
per detected token, in order. -/
lemma foldl_append_eq_join (g : JStr → JStr) :
    ∀ (l : List JStr) (init : JStr),
      l.foldl (fun acc x => acc ++ g x) init = init ++ (l.map g).flatten := by
  intro l
  induction l with
  | nil => intro init; simp
  | cons x xs ih => intro init; simp [ih, List.append_assoc]

/-- C5: on a long (> 300 chars), multi-sentence (> 3 segments), unformatted
input in which more than two website/platform tokens are detected,
`formatAIResponse` synthesizes a bulleted list: a fixed header, then exactly
one bullet per detected token in scan order (duplicates each contributing
their own bullet), then a closing invitation sentence.  Each bullet's label
is the token and its body is the sentence-fragment the context regex finds
around the token's first occurrence, with the token substring removed by
`replaceFirst` and the result trimmed; the fragment search always succeeds
because every detected token is a substring of the input. -/
theorem formatAIResponse_list_detection (content : JStr)
    (h0 : alreadyFormatted content = false)
    (h1 : 3 < (sentences content).length)
    (h2 : 300 < content.length)
    (h3 : 2 < (websiteMatches content).length) :
    formatAIResponse content =
      jstr ("I found several great options:\n\n") ++
        ((websiteMatches content).map (bulletForSite content)).flatten ++
        jstr ("\nWould you like me to provide more details about any of these options?") ∧
    ((websiteMatches content).map (bulletForSite content)).length =
      (websiteMatches content).length ∧
    (∀ site ∈ websiteMatches content, ∃ frag,
      fragFirstMatch site content = some frag ∧
      bulletForSite content site =
        jstr ("• **") ++ site ++ jstr ("** - ") ++
          jsTrim (replaceFirst frag site) ++ jstr ("\n")) := by
  refine ⟨?_, by simp, ?_⟩
  · unfold formatAIResponse listBranch
    rw [foldl_append_eq_join]
    simp [h0, h1, h2, h3, List.append_assoc]
  · intro site hsite
    have hinf : site <:+: content := mem_matchAllAux_infix _ _ _ hsite
    obtain ⟨frag, hfrag⟩ := fragFirstMatch_of_infix site content hinf
    exact ⟨frag, hfrag, by simp [bulletForSite, hfrag]⟩

/-- A concrete long input with more than three sentences and three detected
website tokens. -/
def sitesLongText : JStr :=
  jstr ("you can search on google.com for almost anything you need today. you can read the docs on mozilla.org when you build for the web. you can explore models on example.ai if you like machine learning. there are many more places to visit on the internet. i hope this quick list of websites helps you get started right now.")

set_option maxRecDepth 100000 in
/-- Witness for C5 at `sitesLongText`. -/
theorem formatAIResponse_list_detection_witness :
    (alreadyFormatted sitesLongText = false ∧
      3 < (sentences sitesLongText).length ∧
      300 < sitesLongText.length ∧
      2 < (websiteMatches sitesLongText).length) ∧
    (formatAIResponse sitesLongText =
      jstr ("I found several great options:\n\n") ++
        ((websiteMatches sitesLongText).map (bulletForSite sitesLongText)).flatten ++
        jstr ("\nWould you like me to provide more details about any of these options?") ∧
    ((websiteMatches sitesLongText).map (bulletForSite sitesLongText)).length =
      (websiteMatches sitesLongText).length ∧
    (∀ site ∈ websiteMatches sitesLongText, ∃ frag,
      fragFirstMatch site sitesLongText = some frag ∧
      bulletForSite sitesLongText site =
        jstr ("• **") ++ site ++ jstr ("** - ") ++
          jsTrim (replaceFirst frag site) ++ jstr ("\n"))) :=
  ⟨⟨by decide, by decide, by decide, by decide⟩,
    formatAIResponse_list_detection sitesLongText
      (by decide) (by decide) (by decide) (by decide)⟩

/-! ### Chat session controller (`landing.jsx` lines 192-301)

The React state relevant to the chat claims is `messages`, `inputValue` and
`isLoading`.  `handleSubmit` is split at its `await` point: the synchronous
prefix (guard, immediate user-message append, input clear, loading flag,
request payload) and the continuation that runs once the request resolves,
parameterized by the outcome.  The display-only `id` and `timestamp` fields
of a message are omitted. -/

/-- The `type` field of a message: `"user"` or `"bot"`. -/
inductive MsgType
  | user
  | bot
deriving DecidableEq

/-- One entry of the message log.  `toolsUsed` is `none` for messages created
without that field (user messages and error bot messages). -/
structure Message where
  type : MsgType
  content : JStr
  toolsUsed : Option (List JStr)
deriving DecidableEq

/-- The chat-related component state. -/
structure ChatState where
  messages : List Message
  inputValue : JStr
  isLoading : Bool
deriving DecidableEq

/-- The body of the POST to `{BACKEND_URL}/chat` (`landing.jsx` lines
222-225): the submitted text plus the serialized prior log. -/
structure ChatRequest where
  message : JStr
  history : List (MsgType × JStr)
deriving DecidableEq

/-- `landing.jsx` lines 196-201: the user message appended on submit (its
content is the raw, untrimmed input value). -/
def userMessageOf (s : ChatState) : Message :=
  { type := MsgType.user, content := s.inputValue, toolsUsed := none }

/-- `landing.jsx` lines 193-227: the synchronous part of `handleSubmit` up to
issuing the POST — the guard `if (!inputValue.trim() || isLoading) return`
(line 194), the immediate user-message append, input clear and loading flag
(lines 203-205), and the request payload built from the prior log (lines
209-225).  `none` means the guard rejected: state unchanged, no request. -/
def handleSubmitStart (s : ChatState) : Option (ChatState × ChatRequest) :=
  if jsTrim s.inputValue = [] ∨ s.isLoading = true then none
  else
    some ({ messages := s.messages ++ [userMessageOf s],
            inputValue := [],
            isLoading := true },
          { message := s.inputValue,
            history := s.messages.map (fun m => (m.type, m.content)) })

/-- One tool-call record of the chat response (`data.tool_calls[i]`); only
its `name` field is read. -/
structure ToolCall where
  name : JStr
deriving DecidableEq

/-- How the chat request resolves: a parsed ok response (`ai_message`
absent/null ↦ `none`; `tool_calls` absent ↦ `none`), a non-ok HTTP status,
or a thrown error object carrying `name` and `message` (fetch-level network
failures, the abort with `name = "AbortError"`, JSON parse failures). -/
inductive ChatOutcome
  | success (ai_message : Option JStr) (tool_calls : Option (List ToolCall))
  | httpError (status : Nat)
  | jsError (errName : JStr) (errMsg : JStr)
deriving DecidableEq

/-- `landing.jsx` lines 231-243: the message of the `Error` thrown for a
non-ok chat response (503 checked first, then `>= 500`, then 404, then the
generic template). -/
def httpStatusErrorMessage (status : Nat) : JStr :=
  if status = 503 then
    jstr ("Service is starting up. Please wait a moment and try again.")
  else if 500 ≤ status then
    jstr ("Server error. Please try again later.")
  else if status = 404 then
    jstr ("Service not found. Please check the backend URL.")
  else jstr ("HTTP error! status: ") ++ Nat.toDigits 10 status

/-- `landing.jsx` line 271: the header prepended to every error bot message. -/
def connectionErrorHeader : JStr := jstr ("⚠️ **Connection Error**\n\n")

/-- `landing.jsx` lines 274-275: the timeout (abort) remediation body. -/
def timeoutText : JStr :=
  jstr ("Request timed out. The server might be busy.\n• Try a simpler question\n• Wait a moment and try again\n• Check your internet connection")

/-- `landing.jsx` lines 277-278: the service-starting remediation body. -/
def startupText : JStr :=
  jstr ("The AI service is starting up.\n• Please wait 30-60 seconds\n• Try your request again\n• The service should be ready shortly")

/-- `landing.jsx` lines 283-284: the network-failure remediation body. -/
def networkText : JStr :=
  jstr ("Network connection issue.\n• Check your internet connection\n• The server might be temporarily unavailable\n• Try again in a few moments")

/-- `landing.jsx` line 286: the generic remediation body, embedding the
caught error's message. -/
def genericText (errMsg : JStr) : JStr :=
  jstr ("Sorry, I couldn\x27t process your request:\n• ") ++ errMsg ++
    jstr ("\n• Please try again in a moment")

/-- `landing.jsx` lines 271-287: the error classification of the `catch`
block, as a function of the caught error object's `name` and `message`. -/
def classifyErrorMessage (errName errMsg : JStr) : JStr :=
  connectionErrorHeader ++
    (if errName = jstr ("AbortError") then timeoutText
     else if isSubstr (jstr ("Service is starting up")) errMsg then startupText
     else if isSubstr (jstr ("Failed to fetch")) errMsg ||
         isSubstr (jstr ("NetworkError")) errMsg then networkText
     else genericText errMsg)

/-- The full timeout-category bot message content. -/
def timeoutRemediation : JStr := connectionErrorHeader ++ timeoutText

/-- The full service-starting-category bot message content. -/
def startupRemediation : JStr := connectionErrorHeader ++ startupText

/-- The full network-failure-category bot message content. -/
def networkRemediation : JStr := connectionErrorHeader ++ networkText

/-- The full generic-category bot message content for a given error message. -/
def genericRemediation (errMsg : JStr) : JStr :=
  connectionErrorHeader ++ genericText errMsg

/-- The bot message content produced for an HTTP `>= 500` (non-503) chat
response. -/
def serverErrorRemediation : JStr :=
  genericRemediation (jstr ("Server error. Please try again later."))

/-- The bot message content produced for an HTTP 404 chat response. -/
def notFoundRemediation : JStr :=
  genericRemediation (jstr ("Service not found. Please check the backend URL."))

/-- `landing.jsx` line 248: `data.ai_message || "(No direct textual response)"`
(JS `||` treats an absent, null, or empty-string reply as falsy). -/
def botMessageContent (ai_message : Option JStr) : JStr :=
  match ai_message with
  | some s => if s = [] then jstr ("(No direct textual response)") else s
  | none => jstr ("(No direct textual response)")

/-- `landing.jsx` lines 249-254: the invoked tool names, in response order,
duplicates preserved; `[]` when `tool_calls` is absent or empty. -/
def extractToolsUsed (tool_calls : Option (List ToolCall)) : List JStr :=
  match tool_calls with
  | some tcs => if 0 < tcs.length then tcs.map ToolCall.name else []
  | none => []

/-- `landing.jsx` lines 246-300: the continuation of `handleSubmit` once the
request resolves — success appends the formatted bot response (lines
246-267), any failure appends the classified error bot message (lines
268-297), and the `finally` clears the loading flag (line 299). -/
def handleSubmitFinish (s : ChatState) (o : ChatOutcome) : ChatState :=
  match o with
  | ChatOutcome.success ai tcs =>
    { s with
      messages := s.messages ++
        [{ type := MsgType.bot,
           content := formatAIResponse (botMessageContent ai),
           toolsUsed := some (extractToolsUsed tcs) }],
      isLoading := false }
  | ChatOutcome.httpError status =>
    { s with
      messages := s.messages ++
        [{ type := MsgType.bot,
           content := classifyErrorMessage (jstr ("Error")) (httpStatusErrorMessage status),
           toolsUsed := none }],
      isLoading := false }
  | ChatOutcome.jsError errName errMsg =>
    { s with
      messages := s.messages ++
        [{ type := MsgType.bot,
           content := classifyErrorMessage errName errMsg,
           toolsUsed := none }],
      isLoading := false }

/-- One full run of `handleSubmit` (`landing.jsx` lines 193-301),
parameterized by how the chat request resolves. -/
def handleSubmit (s : ChatState) (o : ChatOutcome) : ChatState :=
  match handleSubmitStart s with
  | none => s
  | some (s1, _req) => handleSubmitFinish s1 o

/-! ### Tool directory client (`landing.jsx` lines 133-175) -/

/-- The `tools` field of the parsed `/tools` response body:
absent (or null/falsy), present but not an array, or an array of strings. -/
inductive JsToolsField
  | absent
  | nonArray
  | arrayVal (tools : List JStr)
deriving DecidableEq

/-- How the tools request resolves: a response with an HTTP status and parsed
JSON body, or a thrown error (network failure, timeout, JSON parse failure)
carrying its message. -/
inductive ToolsOutcome
  | completed (status : Nat) (field : JsToolsField)
  | thrown (msg : JStr)
deriving DecidableEq

/-- The tools-related component state. -/
structure ToolsState where
  availableTools : List JStr
  toolsLoading : Bool
  toolsError : Option JStr
deriving DecidableEq

/-- `landing.jsx` lines 162-171: the hardcoded fallback tool list. -/
def fallbackTools : List JStr :=
  [jstr ("firecrawl_scrape"), jstr ("firecrawl_map"), jstr ("firecrawl_crawl"),
   jstr ("firecrawl_check_crawl_status"), jstr ("firecrawl_search"),
   jstr ("firecrawl_extract"), jstr ("firecrawl_deep_research"),
   jstr ("firecrawl_generate_llmstxt")]

/-- JS `response.ok`: status in the 2xx range. -/
def responseOk (status : Nat) : Bool := 200 ≤ status && status ≤ 299

/-- `landing.jsx` line 148: the message thrown for a non-ok tools response. -/
def toolsHttpErrorMessage (status : Nat) : JStr :=
  jstr ("HTTP error! status: ") ++ Nat.toDigits 10 status

/-- `landing.jsx` lines 133-175: one full run of `fetchAvailableTools`
(loading set, error cleared, then the response processed with the
`data.tools && Array.isArray(data.tools)` check — an array, even empty, is
truthy — and the `catch`/`finally` handling), as the resulting state. -/
def fetchAvailableTools : ToolsOutcome → ToolsState → ToolsState
  | ToolsOutcome.completed status field, _s =>
    if responseOk status then
      match field with
      | JsToolsField.arrayVal ts =>
        { availableTools := ts, toolsLoading := false, toolsError := none }
      | JsToolsField.absent =>
        { availableTools := fallbackTools, toolsLoading := false,
          toolsError := some (jstr ("Invalid tools data format")) }
      | JsToolsField.nonArray =>
        { availableTools := fallbackTools, toolsLoading := false,
          toolsError := some (jstr ("Invalid tools data format")) }
    else
      { availableTools := fallbackTools, toolsLoading := false,
        toolsError := some (toolsHttpErrorMessage status) }
  | ToolsOutcome.thrown msg, _s =>
    { availableTools := fallbackTools, toolsLoading := false,
      toolsError := some msg }

/-! ### Chat lifecycle claims -/

/-- Whatever the outcome, the continuation appends exactly one bot message
and clears the loading flag. -/
lemma handleSubmitFinish_appends_bot (s : ChatState) (o : ChatOutcome) :
    ∃ bot : Message, bot.type = MsgType.bot ∧
      (handleSubmitFinish s o).messages = s.messages ++ [bot] ∧
      (handleSubmitFinish s o).isLoading = false := by
  cases o with
  | success ai tcs => exact ⟨_, rfl, rfl, rfl⟩
  | httpError status => exact ⟨_, rfl, rfl, rfl⟩
  | jsError errName errMsg => exact ⟨_, rfl, rfl, rfl⟩

/-- When the guard passes, `handleSubmitStart` produces exactly the started
state and request. -/
lemma handleSubmitStart_eq (s : ChatState)
    (h1 : jsTrim s.inputValue ≠ []) (h2 : s.isLoading = false) :
    handleSubmitStart s =
      some ({ messages := s.messages ++ [userMessageOf s],
              inputValue := [],
              isLoading := true },
            { message := s.inputValue,
              history := s.messages.map (fun m => (m.type, m.content)) }) := by
  unfold handleSubmitStart
  rw [if_neg]
  rintro (h | h)
  · exact h1 h
  · rw [h2] at h; cases h

/-- C1: for every input that is non-empty after trimming, with no send in
flight, one run of `handleSubmit` appends exactly one user message
immediately (with the loading flag set before the request is issued) and
exactly one bot message once the request resolves — whatever the outcome —
so the log grows by exactly 2 and the loading flag is cleared on every
path. -/
theorem handleSubmit_appends_exactly_two (s : ChatState) (o : ChatOutcome)
    (h1 : jsTrim s.inputValue ≠ []) (h2 : s.isLoading = false) :
    ∃ (s1 : ChatState) (req : ChatRequest) (bot : Message),
      handleSubmitStart s = some (s1, req) ∧
      s1.messages = s.messages ++ [userMessageOf s] ∧
      (userMessageOf s).type = MsgType.user ∧
      s1.isLoading = true ∧
      bot.type = MsgType.bot ∧
      (handleSubmit s o).messages = s.messages ++ [userMessageOf s, bot] ∧
      (handleSubmit s o).messages.length = s.messages.length + 2 ∧
      (handleSubmit s o).isLoading = false := by
  have hstart := handleSubmitStart_eq s h1 h2
  obtain ⟨bot, hb, hm, hl⟩ := handleSubmitFinish_appends_bot
    { messages := s.messages ++ [userMessageOf s], inputValue := [], isLoading := true } o
  have hrun : handleSubmit s o = handleSubmitFinish
      { messages := s.messages ++ [userMessageOf s], inputValue := [], isLoading := true } o := by
    unfold handleSubmit
    rw [hstart]
  refine ⟨_, _, bot, hstart, rfl, rfl, rfl, hb, ?_, ?_, ?_⟩
  · rw [hrun, hm]
    simp
  · rw [hrun, hm]
    simp
  · rw [hrun, hl]

/-- Witness for C1 at a concrete state and outcome. -/
theorem handleSubmit_appends_exactly_two_witness :
    (jsTrim (jstr ("hi")) ≠ [] ∧
      (({ messages := [], inputValue := jstr ("hi"), isLoading := false } : ChatState)).isLoading = false) ∧
    ∃ (s1 : ChatState) (req : ChatRequest) (bot : Message),
      handleSubmitStart { messages := [], inputValue := jstr ("hi"), isLoading := false } = some (s1, req) ∧
      s1.messages = [] ++ [userMessageOf { messages := [], inputValue := jstr ("hi"), isLoading := false }] ∧
      (userMessageOf { messages := [], inputValue := jstr ("hi"), isLoading := false }).type = MsgType.user ∧
      s1.isLoading = true ∧
      bot.type = MsgType.bot ∧
      (handleSubmit { messages := [], inputValue := jstr ("hi"), isLoading := false }
        (ChatOutcome.jsError (jstr ("AbortError")) (jstr ("")))).messages =
        [] ++ [userMessageOf { messages := [], inputValue := jstr ("hi"), isLoading := false }, bot] ∧
      (handleSubmit { messages := [], inputValue := jstr ("hi"), isLoading := false }
        (ChatOutcome.jsError (jstr ("AbortError")) (jstr ("")))).messages.length =
        ([] : List Message).length + 2 ∧
      (handleSubmit { messages := [], inputValue := jstr ("hi"), isLoading := false }
        (ChatOutcome.jsError (jstr ("AbortError")) (jstr ("")))).isLoading = false :=
  ⟨⟨by decide, rfl⟩,
    handleSubmit_appends_exactly_two
      { messages := [], inputValue := jstr ("hi"), isLoading := false }
      (ChatOutcome.jsError (jstr ("AbortError")) (jstr ("")))
      (by decide) rfl⟩

/-- C3: for every input that is empty or whitespace-only after trimming, and
whenever a send is already in flight, `handleSubmit` is a no-op: the guard
rejects, no request is issued, and the state (message log, input value,
loading flag) is unchanged whatever outcome would have occurred. -/
theorem handleSubmit_noop (s : ChatState)
    (h : jsTrim s.inputValue = [] ∨ s.isLoading = true) :
    handleSubmitStart s = none ∧ ∀ o : ChatOutcome, handleSubmit s o = s := by
  have hstart : handleSubmitStart s = none := by
    unfold handleSubmitStart
    rw [if_pos h]
  refine ⟨hstart, fun o => ?_⟩
  unfold handleSubmit
  rw [hstart]

/-- Witness for C3 at a whitespace-only input and at an in-flight state. -/
theorem handleSubmit_noop_witness :
    (jsTrim (jstr ("   ")) = [] ∧
      handleSubmitStart { messages := [], inputValue := jstr ("   "), isLoading := false } = none ∧
      handleSubmit { messages := [], inputValue := jstr ("   "), isLoading := false }
        (ChatOutcome.httpError 500) =
        { messages := [], inputValue := jstr ("   "), isLoading := false }) ∧
    (({ messages := [], inputValue := jstr ("hi"), isLoading := true } : ChatState)).isLoading = true ∧
      handleSubmitStart { messages := [], inputValue := jstr ("hi"), isLoading := true } = none ∧
      handleSubmit { messages := [], inputValue := jstr ("hi"), isLoading := true }
        (ChatOutcome.httpError 500) =
        { messages := [], inputValue := jstr ("hi"), isLoading := true } :=
  ⟨⟨by decide,
    (handleSubmit_noop _ (Or.inl (by decide))).1,
    (handleSubmit_noop _ (Or.inl (by decide))).2 _⟩,
    rfl,
    (handleSubmit_noop _ (Or.inr rfl)).1,
    (handleSubmit_noop _ (Or.inr rfl)).2 _⟩

/-- C2: a failed chat request is classified into one of timeout (abort),
service-starting (HTTP 503), server-error (HTTP >= 500), not-found (HTTP
404), network-failure, or generic, and the appended bot message carries the
remediation text of that category; for an HTTP 500 response the appended
content is the server-error remediation, which differs from both the timeout
and the network-failure remediations. -/
theorem chat_error_classification (s : ChatState)
    (h1 : jsTrim s.inputValue ≠ []) (h2 : s.isLoading = false) :
    (∃ bot : Message,
      (handleSubmit s (ChatOutcome.httpError 500)).messages =
        s.messages ++ [userMessageOf s, bot] ∧
      bot.content = serverErrorRemediation) ∧
    serverErrorRemediation ≠ timeoutRemediation ∧
    serverErrorRemediation ≠ networkRemediation ∧
    (∀ status : Nat, 500 ≤ status → status ≠ 503 →
      classifyErrorMessage (jstr ("Error")) (httpStatusErrorMessage status) =
        serverErrorRemediation) ∧
    classifyErrorMessage (jstr ("Error")) (httpStatusErrorMessage 503) =
      startupRemediation ∧
    classifyErrorMessage (jstr ("Error")) (httpStatusErrorMessage 404) =
      notFoundRemediation ∧
    (∀ errMsg : JStr,
      classifyErrorMessage (jstr ("AbortError")) errMsg = timeoutRemediation) ∧
    classifyErrorMessage (jstr ("TypeError")) (jstr ("Failed to fetch")) =
      networkRemediation := by
  have hstart := handleSubmitStart_eq s h1 h2
  have hrun : handleSubmit s (ChatOutcome.httpError 500) =
      handleSubmitFinish
        { messages := s.messages ++ [userMessageOf s], inputValue := [],
          isLoading := true } (ChatOutcome.httpError 500) := by
    unfold handleSubmit
    rw [hstart]
  refine ⟨?_, by decide, by decide, ?_, by decide, by decide, ?_, by decide⟩
  · refine ⟨Message.mk MsgType.bot
        (classifyErrorMessage (jstr ("Error")) (httpStatusErrorMessage 500)) none,
        ?_, by decide⟩
    rw [hrun]
    show (s.messages ++ [userMessageOf s]) ++ [_] = _
    simp
  · intro status h5 h503
    have hm : httpStatusErrorMessage status =
        jstr ("Server error. Please try again later.") := by
      unfold httpStatusErrorMessage
      rw [if_neg h503, if_pos h5]
    rw [hm]
    decide
  · intro errMsg
    unfold classifyErrorMessage
    rw [if_pos rfl]
    rfl

/-- Witness for C2 at a concrete state, plus concrete instantiations of the
quantified category conjuncts (status 505 for the `>= 500` range, an
arbitrary message for the abort case). -/
theorem chat_error_classification_witness :
    (∃ bot : Message,
      (handleSubmit { messages := [], inputValue := jstr ("hi"), isLoading := false }
        (ChatOutcome.httpError 500)).messages =
        [] ++ [userMessageOf { messages := [], inputValue := jstr ("hi"), isLoading := false }, bot] ∧
      bot.content = serverErrorRemediation) ∧
    serverErrorRemediation ≠ timeoutRemediation ∧
    serverErrorRemediation ≠ networkRemediation ∧
    classifyErrorMessage (jstr ("Error")) (httpStatusErrorMessage 505) =
      serverErrorRemediation ∧
    classifyErrorMessage (jstr ("AbortError")) (jstr ("whatever")) =
      timeoutRemediation :=
  ⟨(chat_error_classification
      { messages := [], inputValue := jstr ("hi"), isLoading := false }
      (by decide) rfl).1,
    (chat_error_classification
      { messages := [], inputValue := jstr ("hi"), isLoading := false }
      (by decide) rfl).2.1,
    (chat_error_classification
      { messages := [], inputValue := jstr ("hi"), isLoading := false }
      (by decide) rfl).2.2.1,
    (chat_error_classification
      { messages := [], inputValue := jstr ("hi"), isLoading := false }
      (by decide) rfl).2.2.2.1 505 (by decide) (by decide),
    (chat_error_classification
      { messages := [], inputValue := jstr ("hi"), isLoading := false }
      (by decide) rfl).2.2.2.2.2.2.1 (jstr ("whatever"))⟩

/-- C9: on a successful chat response, the appended bot message's `toolsUsed`
list is the sequence of `name` fields of the `tool_calls` records in response
order, duplicates preserved; when `tool_calls` is absent or empty it is the
empty list. -/
theorem botMessage_toolsUsed (s : ChatState)
    (h1 : jsTrim s.inputValue ≠ []) (h2 : s.isLoading = false)
    (ai : Option JStr) (tcs : List ToolCall) (hne : tcs ≠ []) :
    (∃ bot : Message,
      (handleSubmit s (ChatOutcome.success ai (some tcs))).messages =
        s.messages ++ [userMessageOf s, bot] ∧
      bot.toolsUsed = some (tcs.map ToolCall.name)) ∧
    (∀ ai2 : Option JStr, ∃ bot : Message,
      (handleSubmit s (ChatOutcome.success ai2 none)).messages =
        s.messages ++ [userMessageOf s, bot] ∧
      bot.toolsUsed = some []) ∧
    (∀ ai2 : Option JStr, ∃ bot : Message,
      (handleSubmit s (ChatOutcome.success ai2 (some []))).messages =
        s.messages ++ [userMessageOf s, bot] ∧
      bot.toolsUsed = some []) := by
  have hstart := handleSubmitStart_eq s h1 h2
  have hrun : ∀ o : ChatOutcome, handleSubmit s o =
      handleSubmitFinish
        { messages := s.messages ++ [userMessageOf s], inputValue := [],
          isLoading := true } o := by
    intro o
    unfold handleSubmit
    rw [hstart]
  refine ⟨?_, ?_, ?_⟩
  · refine ⟨Message.mk MsgType.bot
        (formatAIResponse (botMessageContent ai))
        (some (extractToolsUsed (some tcs))), ?_, ?_⟩
    · rw [hrun]
      show (s.messages ++ [userMessageOf s]) ++ [_] = _
      simp
    · show some (if 0 < tcs.length then tcs.map ToolCall.name else []) =
        some (tcs.map ToolCall.name)
      rw [if_pos (List.length_pos.mpr hne)]
  · intro ai2
    refine ⟨Message.mk MsgType.bot
        (formatAIResponse (botMessageContent ai2))
        (some (extractToolsUsed none)), ?_, rfl⟩
    rw [hrun]
    show (s.messages ++ [userMessageOf s]) ++ [_] = _
    simp
  · intro ai2
    refine ⟨Message.mk MsgType.bot
        (formatAIResponse (botMessageContent ai2))
        (some (extractToolsUsed (some []))), ?_, rfl⟩
    rw [hrun]
    show (s.messages ++ [userMessageOf s]) ++ [_] = _
    simp

/-- Witness for C9 at a concrete state, reply, and two-element (duplicated)
tool-call list. -/
theorem botMessage_toolsUsed_witness :
    (jsTrim (jstr ("hi")) ≠ [] ∧
      ([ToolCall.mk (jstr ("firecrawl_search")), ToolCall.mk (jstr ("firecrawl_search"))] :
        List ToolCall) ≠ []) ∧
    (∃ bot : Message,
      (handleSubmit { messages := [], inputValue := jstr ("hi"), isLoading := false }
        (ChatOutcome.success (some (jstr ("ok")))
          (some [ToolCall.mk (jstr ("firecrawl_search")),
                 ToolCall.mk (jstr ("firecrawl_search"))]))).messages =
        [] ++ [userMessageOf { messages := [], inputValue := jstr ("hi"), isLoading := false }, bot] ∧
      bot.toolsUsed =
        some ([ToolCall.mk (jstr ("firecrawl_search")),
               ToolCall.mk (jstr ("firecrawl_search"))].map ToolCall.name)) ∧
    (∃ bot : Message,
      (handleSubmit { messages := [], inputValue := jstr ("hi"), isLoading := false }
        (ChatOutcome.success (some (jstr ("ok"))) none)).messages =
        [] ++ [userMessageOf { messages := [], inputValue := jstr ("hi"), isLoading := false }, bot] ∧
      bot.toolsUsed = some []) :=
  ⟨⟨by decide, by decide⟩,
    (botMessage_toolsUsed { messages := [], inputValue := jstr ("hi"), isLoading := false }
      (by decide) rfl (some (jstr ("ok")))
      [ToolCall.mk (jstr ("firecrawl_search")), ToolCall.mk (jstr ("firecrawl_search"))]
      (by decide)).1,
    (botMessage_toolsUsed { messages := [], inputValue := jstr ("hi"), isLoading := false }
      (by decide) rfl (some (jstr ("ok")))
      [ToolCall.mk (jstr ("firecrawl_search")), ToolCall.mk (jstr ("firecrawl_search"))]
      (by decide)).2.1 (some (jstr ("ok")))⟩

/-- C10: when the successful chat response's `ai_message` is absent, null, or
the empty string, the appended bot message's content is the placeholder
`"(No direct textual response)"` (which the formatter leaves unchanged); the
empty string is treated exactly like an absent reply. -/
theorem botMessage_placeholder (s : ChatState)
    (h1 : jsTrim s.inputValue ≠ []) (h2 : s.isLoading = false)
    (tcs : Option (List ToolCall)) :
    (∃ bot : Message,
      (handleSubmit s (ChatOutcome.success none tcs)).messages =
        s.messages ++ [userMessageOf s, bot] ∧
      bot.content = jstr ("(No direct textual response)")) ∧
    (∃ bot : Message,
      (handleSubmit s (ChatOutcome.success (some []) tcs)).messages =
        s.messages ++ [userMessageOf s, bot] ∧
      bot.content = jstr ("(No direct textual response)")) ∧
    formatAIResponse (jstr ("(No direct textual response)")) =
      jstr ("(No direct textual response)") := by
  have hstart := handleSubmitStart_eq s h1 h2
  have hrun : ∀ o : ChatOutcome, handleSubmit s o =
      handleSubmitFinish
        { messages := s.messages ++ [userMessageOf s], inputValue := [],
          isLoading := true } o := by
    intro o
    unfold handleSubmit
    rw [hstart]
  refine ⟨?_, ?_, by decide⟩
  · refine ⟨Message.mk MsgType.bot
        (formatAIResponse (botMessageContent none))
        (some (extractToolsUsed tcs)), ?_, ?_⟩
    · rw [hrun]
      show (s.messages ++ [userMessageOf s]) ++ [_] = _
      simp
    · show formatAIResponse (botMessageContent none) = _
      decide
  · refine ⟨Message.mk MsgType.bot
        (formatAIResponse (botMessageContent (some [])))
        (some (extractToolsUsed tcs)), ?_, ?_⟩
    · rw [hrun]
      show (s.messages ++ [userMessageOf s]) ++ [_] = _
      simp
    · show formatAIResponse (botMessageContent (some [])) = _
      decide

/-- Witness for C10 at a concrete state with an empty-string reply. -/
theorem botMessage_placeholder_witness :
    jsTrim (jstr ("hi")) ≠ [] ∧
    (∃ bot : Message,
      (handleSubmit { messages := [], inputValue := jstr ("hi"), isLoading := false }
        (ChatOutcome.success (some []) none)).messages =
        [] ++ [userMessageOf { messages := [], inputValue := jstr ("hi"), isLoading := false }, bot] ∧
      bot.content = jstr ("(No direct textual response)")) :=
  ⟨by decide,
    (botMessage_placeholder { messages := [], inputValue := jstr ("hi"), isLoading := false }
      (by decide) rfl none).2.1⟩

/-- C8: a 2xx tools response whose body's `tools` field is an array replaces
the tool list with exactly that array (clearing the error state); any thrown
error (network failure, timeout, parse failure), any non-2xx status, and any
body whose `tools` field is absent or not an array set the error state and
replace the tool list with the fixed eight-identifier fallback; the loading
flag ends up cleared in every case. -/
theorem fetchAvailableTools_spec :
    fallbackTools.length = 8 ∧
    (∀ (o : ToolsOutcome) (s : ToolsState),
      (fetchAvailableTools o s).toolsLoading = false) ∧
    (∀ (status : Nat) (ts : List JStr) (s : ToolsState), responseOk status = true →
      fetchAvailableTools (ToolsOutcome.completed status (JsToolsField.arrayVal ts)) s =
        { availableTools := ts, toolsLoading := false, toolsError := none }) ∧
    (∀ (status : Nat) (field : JsToolsField) (s : ToolsState), responseOk status = false →
      (fetchAvailableTools (ToolsOutcome.completed status field) s).availableTools =
        fallbackTools ∧
      (fetchAvailableTools (ToolsOutcome.completed status field) s).toolsError ≠ none) ∧
    (∀ (status : Nat) (s : ToolsState), responseOk status = true →
      (fetchAvailableTools (ToolsOutcome.completed status JsToolsField.absent) s).availableTools =
        fallbackTools ∧
      (fetchAvailableTools (ToolsOutcome.completed status JsToolsField.absent) s).toolsError ≠ none) ∧
    (∀ (status : Nat) (s : ToolsState), responseOk status = true →
      (fetchAvailableTools (ToolsOutcome.completed status JsToolsField.nonArray) s).availableTools =
        fallbackTools ∧
      (fetchAvailableTools (ToolsOutcome.completed status JsToolsField.nonArray) s).toolsError ≠ none) ∧
    (∀ (msg : JStr) (s : ToolsState),
      (fetchAvailableTools (ToolsOutcome.thrown msg) s).availableTools = fallbackTools ∧
      (fetchAvailableTools (ToolsOutcome.thrown msg) s).toolsError ≠ none) := by
  refine ⟨rfl, ?_, ?_, ?_, ?_, ?_, ?_⟩
  · intro o s
    cases o with
    | completed status field =>
      simp only [fetchAvailableTools]
      by_cases hok : responseOk status = true
      · rw [if_pos hok]
        cases field <;> rfl
      · rw [if_neg hok]
    | thrown msg => rfl
  · intro status ts s hok
    simp only [fetchAvailableTools]
    rw [if_pos hok]
  · intro status field s hok
    have hok2 : ¬responseOk status = true := by
      rw [hok]
      exact Bool.false_ne_true
    simp only [fetchAvailableTools]
    rw [if_neg hok2]
    exact ⟨rfl, by simp⟩
  · intro status s hok
    simp only [fetchAvailableTools]
    rw [if_pos hok]
    exact ⟨rfl, by simp⟩
  · intro status s hok
    simp only [fetchAvailableTools]
    rw [if_pos hok]
    exact ⟨rfl, by simp⟩
  · intro msg s
    exact ⟨rfl, by simp [fetchAvailableTools]⟩

/-- Witness for C8 at concrete statuses, bodies, and states. -/
theorem fetchAvailableTools_spec_witness :
    fallbackTools.length = 8 ∧
    fetchAvailableTools
        (ToolsOutcome.completed 200 (JsToolsField.arrayVal [jstr ("firecrawl_search")]))
        { availableTools := [], toolsLoading := true, toolsError := none } =
      { availableTools := [jstr ("firecrawl_search")], toolsLoading := false,
        toolsError := none } ∧
    ((fetchAvailableTools (ToolsOutcome.completed 500 (JsToolsField.arrayVal [jstr ("x")]))
        { availableTools := [], toolsLoading := true, toolsError := none }).availableTools =
      fallbackTools ∧
    (fetchAvailableTools (ToolsOutcome.completed 500 (JsToolsField.arrayVal [jstr ("x")]))
        { availableTools := [], toolsLoading := true, toolsError := none }).toolsError ≠ none) ∧
    ((fetchAvailableTools (ToolsOutcome.completed 200 JsToolsField.absent)
        { availableTools := [], toolsLoading := true, toolsError := none }).availableTools =
      fallbackTools ∧
    (fetchAvailableTools (ToolsOutcome.completed 200 JsToolsField.absent)
        { availableTools := [], toolsLoading := true, toolsError := none }).toolsError ≠ none) ∧
    ((fetchAvailableTools (ToolsOutcome.thrown (jstr ("Failed to fetch")))
        { availableTools := [], toolsLoading := true, toolsError := none }).availableTools =
      fallbackTools ∧
    (fetchAvailableTools (ToolsOutcome.thrown (jstr ("Failed to fetch")))
        { availableTools := [], toolsLoading := true, toolsError := none }).toolsError ≠ none) :=
  ⟨fetchAvailableTools_spec.1,
    fetchAvailableTools_spec.2.2.1 200 [jstr ("firecrawl_search")]
      { availableTools := [], toolsLoading := true, toolsError := none } (by decide),
    fetchAvailableTools_spec.2.2.2.1 500 (JsToolsField.arrayVal [jstr ("x")])
      { availableTools := [], toolsLoading := true, toolsError := none } (by decide),
    fetchAvailableTools_spec.2.2.2.2.1 200
      { availableTools := [], toolsLoading := true, toolsError := none } (by decide),
    fetchAvailableTools_spec.2.2.2.2.2.2 (jstr ("Failed to fetch"))
      { availableTools := [], toolsLoading := true, toolsError := none }⟩
